import Mathlib

/-!
Shallow embedding of the deterministic ROI calculation engine
(`ROICalculator` and its data model) of the AI-Marketing-ROI-Calculator
repository, together with proofs of the specified properties.

JavaScript numbers are modelled as rationals (`ℚ`); the single value
`Infinity` that the engine can produce (`paybackMonths`) is modelled by
the two-constructor type `ExtRat`.  Optional numeric fields of the
TypeScript interfaces are modelled as `Option ℚ`, and the JavaScript
truthiness test on such a field (`!x`) is modelled by `isTruthy`
(`none` and `some 0` are falsy).
-/

/-- JavaScript number extended with positive infinity, as needed for the
`paybackMonths` field. -/
inductive ExtRat where
  | fin (q : ℚ)
  | inf
deriving DecidableEq, Repr

/-- Nonnegativity on `ExtRat`; `inf` counts as nonnegative. -/
def ExtRat.nonneg : ExtRat → Prop
  | .fin q => 0 ≤ q
  | .inf => True

instance (e : ExtRat) : Decidable e.nonneg :=
  match e with
  | .fin q => inferInstanceAs (Decidable (0 ≤ q))
  | .inf => .isTrue trivial

/-- `WorkflowTask` from `types/index.ts`. -/
structure WorkflowTask where
  name : String
  hoursPerRun : ℚ
  aiCoveragePct : ℚ
  efficiencyGainPct : ℚ
deriving DecidableEq, Repr

/-- The `billingModel` union type of `RecommendedTool`. -/
inductive BillingModel where
  | per_user
  | per_account
deriving DecidableEq, Repr

/-- `RecommendedTool` from `types/index.ts`; the two optional cost fields
are `Option ℚ`. -/
structure RecommendedTool where
  name : String
  billingModel : BillingModel
  licensePerUser : Option ℚ := none
  accountCostPerMonth : Option ℚ := none
deriving DecidableEq, Repr

/-- `RevenueModel` from `types/index.ts`. -/
structure RevenueModel where
  revenuePerAsset : Option ℚ := none
  expectedIncrementalConversionLiftPct : Option ℚ := none
deriving DecidableEq, Repr

/-- Result record of `ROICalculator.calculateTotalHours`. -/
structure TotalHours where
  current : ℚ
  future : ℚ
deriving DecidableEq, Repr

/-- Result record of `ROICalculator.calculateLaborCosts`. -/
structure LaborCosts where
  current : ℚ
  future : ℚ
  savings : ℚ
deriving DecidableEq, Repr

/-- Result record of `ROICalculator.calculateTechCosts`. -/
structure TechCosts where
  recurringPerMonth : ℚ
  oneTime : ℚ
deriving DecidableEq, Repr

/-- `ROICalculation` output record from `types/index.ts`.  The fields that
`calculateROI` always sets to a number are plain `ℚ` here. -/
structure ROICalculation where
  totalHoursCurrent : ℚ
  totalHoursFuture : ℚ
  costCurrent : ℚ
  costFuture : ℚ
  monthlySavings : ℚ
  aiRecurringCostPerMonth : ℚ
  trainingCostOneTime : ℚ
  revenueLiftPerRun : ℚ
  monthlyNetBenefit : ℚ
  roiPercentage : ℚ
  paybackMonths : ExtRat
  pilot3MonthSavings : ℚ
  riskAdjustedSavings : ℚ
  throughputMultiplier : ℚ
  additionalMonthlyCost : ℚ
  monthlyUplift : ℚ
  classification : String
  showNetBenefitTooltip : Bool
deriving DecidableEq, Repr

/-- `Scenario` from `types/index.ts`. -/
structure Scenario where
  name : String
  multiplier : ℚ
  calculation : ROICalculation
deriving DecidableEq, Repr

/-- JavaScript truthiness of an optional number (`undefined` and `0` are
falsy). -/
def isTruthy : Option ℚ → Bool
  | none => false
  | some q => q != 0

namespace ROICalculator

/-- `ROICalculator.calculateEffectiveEfficiency`. -/
def calculateEffectiveEfficiency (aiCoveragePct efficiencyGainPct : ℚ) : ℚ :=
  aiCoveragePct * efficiencyGainPct / 100

/-- `ROICalculator.calculateHoursSavedPerRun`. -/
def calculateHoursSavedPerRun (hoursPerRun effectiveEfficiencyPct : ℚ) : ℚ :=
  hoursPerRun * (effectiveEfficiencyPct / 100)

/-- `ROICalculator.calculateFutureHoursPerRun`. -/
def calculateFutureHoursPerRun (hoursPerRun hoursSavedPerRun : ℚ) : ℚ :=
  hoursPerRun - hoursSavedPerRun

/-- `ROICalculator.calculateTotalHours`: the `forEach` accumulation over
the task list, rendered as a left fold; `step` is the `forEach` callback
body. -/
def calculateTotalHours (tasks : List WorkflowTask) : TotalHours :=
  tasks.foldl step { current := 0, future := 0 }
where
  step (acc : TotalHours) (task : WorkflowTask) : TotalHours :=
    let effectiveEfficiency :=
      calculateEffectiveEfficiency task.aiCoveragePct task.efficiencyGainPct
    let hoursSaved :=
      calculateHoursSavedPerRun task.hoursPerRun effectiveEfficiency
    let futureHours :=
      calculateFutureHoursPerRun task.hoursPerRun hoursSaved
    { current := acc.current + task.hoursPerRun
      future := acc.future + futureHours }

/-- `ROICalculator.calculateLaborCosts`. -/
def calculateLaborCosts (totalHoursCurrent totalHoursFuture averageHourlyCost : ℚ) :
    LaborCosts :=
  let costCurrent := totalHoursCurrent * averageHourlyCost
  let costFuture := totalHoursFuture * averageHourlyCost
  let savings := costCurrent - costFuture
  { current := costCurrent, future := costFuture, savings := savings }

/-- `ROICalculator.calculateTechCosts`: `reduce` over the tool list;
`tool.x || 0` on an optional cost field is `Option.getD _ 0`. -/
def calculateTechCosts (recommendedTools : List RecommendedTool) (teamSize : ℚ)
    (trainingCostOneTime : ℚ := 5000) : TechCosts :=
  let recurringPerMonth := recommendedTools.foldl (toolStep teamSize) 0
  { recurringPerMonth := recurringPerMonth, oneTime := trainingCostOneTime }
where
  toolStep (teamSize : ℚ) (sum : ℚ) (tool : RecommendedTool) : ℚ :=
    if tool.billingModel = .per_account then
      sum + tool.accountCostPerMonth.getD 0
    else
      sum + tool.licensePerUser.getD 0 * teamSize

/-- `ROICalculator.calculateRevenueImpact`: returns `undefined` (here
`none`) unless both revenue-model fields are present and truthy. -/
def calculateRevenueImpact (revenueModel : Option RevenueModel)
    (runsPerMonth : ℚ := 10) : Option ℚ :=
  match revenueModel with
  | none => none
  | some rm =>
    if !isTruthy rm.revenuePerAsset ||
        !isTruthy rm.expectedIncrementalConversionLiftPct then
      none
    else
      let revenueLiftPerAsset :=
        rm.revenuePerAsset.getD 0 *
          (rm.expectedIncrementalConversionLiftPct.getD 0 / 100)
      some (revenueLiftPerAsset * runsPerMonth)

/-- The scenario adjustment inside `calculateROI`: every task's
`efficiencyGainPct` is scaled by the multiplier and clamped to `[0, 100]`. -/
def adjustTasks (tasks : List WorkflowTask) (scenarioMultiplier : ℚ) :
    List WorkflowTask :=
  tasks.map fun task =>
    { task with
      efficiencyGainPct :=
        min 100 (max 0 (task.efficiencyGainPct * scenarioMultiplier)) }

/-- `ROICalculator.calculateROI`, the complete ROI synthesis. -/
def calculateROI (tasks : List WorkflowTask)
    (recommendedTools : List RecommendedTool)
    (teamSize : ℚ) (averageHourlyCost : ℚ)
    (revenueModel : Option RevenueModel := none)
    (trainingCostOneTime : ℚ := 5000)
    (runsPerMonth : ℚ := 10)
    (scenarioMultiplier : ℚ := 1) : ROICalculation :=
  let horizonMonths : ℚ := 12
  let pilotMonths : ℚ := 3
  let riskFactor : ℚ := 7 / 10
  let adjustedTasks := adjustTasks tasks scenarioMultiplier
  let totals := calculateTotalHours adjustedTasks
  let safeRunsPerMonth := max runsPerMonth 0
  let totalHoursCurrent := totals.current * safeRunsPerMonth
  let totalHoursFuture := totals.future * safeRunsPerMonth
  let laborCosts :=
    calculateLaborCosts totalHoursCurrent totalHoursFuture averageHourlyCost
  let costCurrent := laborCosts.current
  let costFuture := laborCosts.future
  let rawLaborSavings := laborCosts.savings
  let monthlySavings := max rawLaborSavings 0
  let techCosts :=
    calculateTechCosts recommendedTools teamSize trainingCostOneTime
  let aiRecurringCostPerMonth := techCosts.recurringPerMonth
  let calculatedTrainingCost := techCosts.oneTime
  let revenueLiftPerMonth :=
    (calculateRevenueImpact revenueModel safeRunsPerMonth).getD 0
  let grossBenefitPerMonth := monthlySavings + revenueLiftPerMonth
  let monthlyNetBenefit := grossBenefitPerMonth - aiRecurringCostPerMonth
  let paybackMonths :=
    if monthlyNetBenefit > 0 then
      ExtRat.fin (calculatedTrainingCost / monthlyNetBenefit)
    else
      ExtRat.inf
  let totalNetBenefitOverHorizon :=
    monthlyNetBenefit * horizonMonths - calculatedTrainingCost
  let totalInvestmentOverHorizon :=
    calculatedTrainingCost + aiRecurringCostPerMonth * horizonMonths
  let roiPercentage :=
    if totalInvestmentOverHorizon > 0 then
      totalNetBenefitOverHorizon / totalInvestmentOverHorizon * 100
    else 0
  let pilotGrossBenefit := grossBenefitPerMonth * pilotMonths
  let pilotAIRecurringCost := aiRecurringCostPerMonth * pilotMonths
  let pilotTotalCost := calculatedTrainingCost + pilotAIRecurringCost
  let pilotNetValue := pilotGrossBenefit - pilotTotalCost
  let riskAdjustedSavings := pilotNetValue * riskFactor
  let revenueLiftPerRun := revenueLiftPerMonth
  let throughputMultiplier :=
    if totalHoursFuture > 0 then totalHoursCurrent / totalHoursFuture else 1
  let additionalMonthlyCost :=
    max (aiRecurringCostPerMonth - monthlySavings) 0
  let monthlyUplift := revenueLiftPerMonth
  let classified : String × Bool :=
    if additionalMonthlyCost > 0 ∧ monthlyUplift > additionalMonthlyCost then
      ("AI Performance Investment", true)
    else if monthlySavings > aiRecurringCostPerMonth then
      ("Cost Savings Initiative", false)
    else
      ("Neutral", false)
  { totalHoursCurrent := totalHoursCurrent
    totalHoursFuture := totalHoursFuture
    costCurrent := costCurrent
    costFuture := costFuture
    monthlySavings := monthlySavings
    aiRecurringCostPerMonth := aiRecurringCostPerMonth
    trainingCostOneTime := calculatedTrainingCost
    revenueLiftPerRun := revenueLiftPerRun
    monthlyNetBenefit := monthlyNetBenefit
    roiPercentage := roiPercentage
    paybackMonths := paybackMonths
    pilot3MonthSavings := pilotNetValue
    riskAdjustedSavings := riskAdjustedSavings
    throughputMultiplier := throughputMultiplier
    additionalMonthlyCost := additionalMonthlyCost
    monthlyUplift := monthlyUplift
    classification := classified.1
    showNetBenefitTooltip := classified.2 }

/-- `ROICalculator.generateScenarios`: the three fixed scenarios. -/
def generateScenarios (tasks : List WorkflowTask)
    (recommendedTools : List RecommendedTool)
    (teamSize : ℚ) (averageHourlyCost : ℚ)
    (revenueModel : Option RevenueModel := none)
    (trainingCostOneTime : ℚ := 5000)
    (runsPerMonth : ℚ := 10) : List Scenario :=
  [ { name := "Conservative"
      multiplier := 7 / 10
      calculation := calculateROI tasks recommendedTools teamSize
        averageHourlyCost revenueModel trainingCostOneTime runsPerMonth
        (7 / 10) }
  , { name := "Base"
      multiplier := 1
      calculation := calculateROI tasks recommendedTools teamSize
        averageHourlyCost revenueModel trainingCostOneTime runsPerMonth 1 }
  , { name := "Aggressive"
      multiplier := 13 / 10
      calculation := calculateROI tasks recommendedTools teamSize
        averageHourlyCost revenueModel trainingCostOneTime runsPerMonth
        (13 / 10) } ]

/-- The per-task future hours accumulated by `calculateTotalHours`: the
composition of the three per-task helpers, named so that sum lemmas can be
stated about it. -/
def taskFutureHours (t : WorkflowTask) : ℚ :=
  calculateFutureHoursPerRun t.hoursPerRun
    (calculateHoursSavedPerRun t.hoursPerRun
      (calculateEffectiveEfficiency t.aiCoveragePct t.efficiencyGainPct))

end ROICalculator

/-- The single task of the spec's worked example. -/
def exTask : WorkflowTask :=
  { name := "t", hoursPerRun := 10, aiCoveragePct := 50, efficiencyGainPct := 40 }

/-- A second task, for concrete permutation instances. -/
def exTask2 : WorkflowTask :=
  { name := "u", hoursPerRun := 3, aiCoveragePct := 80, efficiencyGainPct := 25 }

/-- An account-billed tool with a monthly cost, for concrete instantiations. -/
def exTool : RecommendedTool :=
  { name := "tool", billingModel := .per_account,
    accountCostPerMonth := some 2000 }

/-- An account-billed tool whose `accountCostPerMonth` is absent. -/
def exToolNoCost : RecommendedTool :=
  { name := "tool2", billingModel := .per_account, licensePerUser := some 30 }

/-- A revenue model with both fields present and nonzero. -/
def exRevenueModel : RevenueModel :=
  { revenuePerAsset := some 1000,
    expectedIncrementalConversionLiftPct := some 10 }

/-! ### Characterization lemmas

Each lemma below exposes one output field of `calculateROI` as the
expression the source computes for it; all of them hold by definitional
unfolding. -/

namespace ROICalculator

theorem totalHoursCurrent_eq (tasks tools ts ahc rm tc rp m) :
    (calculateROI tasks tools ts ahc rm tc rp m).totalHoursCurrent =
      (calculateTotalHours (adjustTasks tasks m)).current * max rp 0 := rfl

theorem totalHoursFuture_eq (tasks tools ts ahc rm tc rp m) :
    (calculateROI tasks tools ts ahc rm tc rp m).totalHoursFuture =
      (calculateTotalHours (adjustTasks tasks m)).future * max rp 0 := rfl

theorem costCurrent_eq (tasks tools ts ahc rm tc rp m) :
    (calculateROI tasks tools ts ahc rm tc rp m).costCurrent =
      (calculateTotalHours (adjustTasks tasks m)).current * max rp 0 * ahc := rfl

theorem monthlySavings_eq (tasks tools ts ahc rm tc rp m) :
    (calculateROI tasks tools ts ahc rm tc rp m).monthlySavings =
      max ((calculateTotalHours (adjustTasks tasks m)).current * max rp 0 * ahc -
        (calculateTotalHours (adjustTasks tasks m)).future * max rp 0 * ahc) 0 := rfl

theorem monthlyNetBenefit_eq (tasks tools ts ahc rm tc rp m) :
    (calculateROI tasks tools ts ahc rm tc rp m).monthlyNetBenefit =
      max ((calculateTotalHours (adjustTasks tasks m)).current * max rp 0 * ahc -
        (calculateTotalHours (adjustTasks tasks m)).future * max rp 0 * ahc) 0 +
      (calculateRevenueImpact rm (max rp 0)).getD 0 -
      (calculateTechCosts tools ts tc).recurringPerMonth := rfl

theorem monthlyUplift_eq (tasks tools ts ahc rm tc rp m) :
    (calculateROI tasks tools ts ahc rm tc rp m).monthlyUplift =
      (calculateRevenueImpact rm (max rp 0)).getD 0 := rfl

theorem aiRecurringCost_eq (tasks tools ts ahc rm tc rp m) :
    (calculateROI tasks tools ts ahc rm tc rp m).aiRecurringCostPerMonth =
      (calculateTechCosts tools ts tc).recurringPerMonth := rfl

theorem paybackMonths_eq (tasks tools ts ahc rm tc rp m) :
    (calculateROI tasks tools ts ahc rm tc rp m).paybackMonths =
      if (calculateROI tasks tools ts ahc rm tc rp m).monthlyNetBenefit > 0 then
        ExtRat.fin ((calculateROI tasks tools ts ahc rm tc rp m).trainingCostOneTime /
          (calculateROI tasks tools ts ahc rm tc rp m).monthlyNetBenefit)
      else ExtRat.inf := rfl

theorem roiPercentage_eq (tasks tools ts ahc rm tc rp m) :
    (calculateROI tasks tools ts ahc rm tc rp m).roiPercentage =
      if (calculateROI tasks tools ts ahc rm tc rp m).trainingCostOneTime +
          (calculateROI tasks tools ts ahc rm tc rp m).aiRecurringCostPerMonth * 12 > 0 then
        ((calculateROI tasks tools ts ahc rm tc rp m).monthlyNetBenefit * 12 -
          (calculateROI tasks tools ts ahc rm tc rp m).trainingCostOneTime) /
          ((calculateROI tasks tools ts ahc rm tc rp m).trainingCostOneTime +
            (calculateROI tasks tools ts ahc rm tc rp m).aiRecurringCostPerMonth * 12) * 100
      else 0 := rfl

theorem throughputMultiplier_eq (tasks tools ts ahc rm tc rp m) :
    (calculateROI tasks tools ts ahc rm tc rp m).throughputMultiplier =
      if (calculateROI tasks tools ts ahc rm tc rp m).totalHoursFuture > 0 then
        (calculateROI tasks tools ts ahc rm tc rp m).totalHoursCurrent /
          (calculateROI tasks tools ts ahc rm tc rp m).totalHoursFuture
      else 1 := rfl

theorem classified_eq (tasks tools ts ahc rm tc rp m) :
    ((calculateROI tasks tools ts ahc rm tc rp m).classification,
     (calculateROI tasks tools ts ahc rm tc rp m).showNetBenefitTooltip) =
      if (calculateROI tasks tools ts ahc rm tc rp m).additionalMonthlyCost > 0 ∧
          (calculateROI tasks tools ts ahc rm tc rp m).monthlyUplift >
            (calculateROI tasks tools ts ahc rm tc rp m).additionalMonthlyCost then
        ("AI Performance Investment", true)
      else if (calculateROI tasks tools ts ahc rm tc rp m).monthlySavings >
          (calculateROI tasks tools ts ahc rm tc rp m).aiRecurringCostPerMonth then
        ("Cost Savings Initiative", false)
      else ("Neutral", false) := rfl

theorem additionalMonthlyCost_eq (tasks tools ts ahc rm tc rp m) :
    (calculateROI tasks tools ts ahc rm tc rp m).additionalMonthlyCost =
      max ((calculateROI tasks tools ts ahc rm tc rp m).aiRecurringCostPerMonth -
        (calculateROI tasks tools ts ahc rm tc rp m).monthlySavings) 0 := rfl

theorem trainingCost_eq (tasks tools ts ahc rm tc rp m) :
    (calculateROI tasks tools ts ahc rm tc rp m).trainingCostOneTime = tc := rfl

/-! ### Aggregation lemmas for `calculateTotalHours` -/

theorem totalHours_foldl (tasks : List WorkflowTask) (acc : TotalHours) :
    tasks.foldl calculateTotalHours.step acc =
      { current := acc.current + (tasks.map (·.hoursPerRun)).sum
        future := acc.future + (tasks.map taskFutureHours).sum } := by
  induction tasks generalizing acc with
  | nil => simp
  | cons t ts ih =>
      rw [List.foldl_cons, ih]
      simp only [calculateTotalHours.step, taskFutureHours, List.map_cons,
        List.sum_cons, TotalHours.mk.injEq]
      constructor <;> ring

theorem calculateTotalHours_eq (tasks : List WorkflowTask) :
    calculateTotalHours tasks =
      { current := (tasks.map (·.hoursPerRun)).sum
        future := (tasks.map taskFutureHours).sum } := by
  rw [calculateTotalHours, totalHours_foldl]
  simp

theorem adjusted_current_eq (tasks : List WorkflowTask) (m : ℚ) :
    ((adjustTasks tasks m).map (·.hoursPerRun)).sum =
      (tasks.map (·.hoursPerRun)).sum := by
  simp [adjustTasks, List.map_map, Function.comp_def]

/-! ### Monotonicity of the net benefit in the scenario multiplier -/

theorem taskFutureHours_adjust_mono (t : WorkflowTask) {m1 m2 : ℚ}
    (hh : 0 ≤ t.hoursPerRun) (ha : 0 ≤ t.aiCoveragePct)
    (he : 0 ≤ t.efficiencyGainPct) (hm : m1 ≤ m2) :
    taskFutureHours
        { t with efficiencyGainPct := min 100 (max 0 (t.efficiencyGainPct * m2)) } ≤
      taskFutureHours
        { t with efficiencyGainPct := min 100 (max 0 (t.efficiencyGainPct * m1)) } := by
  have hE : min 100 (max 0 (t.efficiencyGainPct * m1)) ≤
      min 100 (max 0 (t.efficiencyGainPct * m2)) :=
    min_le_min le_rfl (max_le_max le_rfl (mul_le_mul_of_nonneg_left hm he))
  have hE0 : 0 ≤ min 100 (max 0 (t.efficiencyGainPct * m1)) :=
    le_min (by norm_num) (le_max_left 0 _)
  simp only [taskFutureHours, calculateFutureHoursPerRun, calculateHoursSavedPerRun,
    calculateEffectiveEfficiency]
  apply sub_le_sub_left
  gcongr

theorem adjusted_future_sum_mono (tasks : List WorkflowTask)
    (hT : ∀ t ∈ tasks, 0 ≤ t.hoursPerRun ∧ 0 ≤ t.aiCoveragePct ∧
      0 ≤ t.efficiencyGainPct)
    {m1 m2 : ℚ} (hm : m1 ≤ m2) :
    ((adjustTasks tasks m2).map taskFutureHours).sum ≤
      ((adjustTasks tasks m1).map taskFutureHours).sum := by
  simp only [adjustTasks, List.map_map]
  apply List.sum_le_sum
  intro t ht
  obtain ⟨hh, ha, he⟩ := hT t ht
  simpa [Function.comp] using taskFutureHours_adjust_mono t hh ha he hm

theorem monthlyNetBenefit_mono (tasks : List WorkflowTask)
    (tools : List RecommendedTool) (ts ahc : ℚ) (rm : Option RevenueModel)
    (tc rp : ℚ)
    (hT : ∀ t ∈ tasks, 0 ≤ t.hoursPerRun ∧ 0 ≤ t.aiCoveragePct ∧
      0 ≤ t.efficiencyGainPct)
    (hahc : 0 ≤ ahc) {m1 m2 : ℚ} (hm : m1 ≤ m2) :
    (calculateROI tasks tools ts ahc rm tc rp m1).monthlyNetBenefit ≤
      (calculateROI tasks tools ts ahc rm tc rp m2).monthlyNetBenefit := by
  rw [monthlyNetBenefit_eq, monthlyNetBenefit_eq]
  apply sub_le_sub_right
  apply add_le_add_right
  apply max_le_max _ le_rfl
  rw [calculateTotalHours_eq, calculateTotalHours_eq]
  simp only
  rw [adjusted_current_eq, adjusted_current_eq]
  apply sub_le_sub_left
  have hF := adjusted_future_sum_mono tasks hT hm
  have h0 : (0:ℚ) ≤ max rp 0 := le_max_right rp 0
  exact mul_le_mul_of_nonneg_right (mul_le_mul_of_nonneg_right hF h0) hahc

end ROICalculator

/-! ### Claim theorems -/


open ROICalculator

/-- C2: `calculateROI` on the spec's worked example (one task
`{hoursPerRun := 10, aiCoveragePct := 50, efficiencyGainPct := 40}`, no
tools, no revenue model, arbitrary team size, hourly cost 75, training
cost 5000, 10 runs per month, multiplier 1) returns exactly the values
the spec lists, together with the intermediate per-task values. -/
theorem c2_worked_example (ts : ℚ) :
    calculateEffectiveEfficiency 50 40 = 20 ∧
    calculateHoursSavedPerRun 10 20 = 2 ∧
    calculateFutureHoursPerRun 10 2 = 8 ∧
    (calculateROI [exTask] [] ts 75 none 5000 10 1).totalHoursCurrent = 100 ∧
    (calculateROI [exTask] [] ts 75 none 5000 10 1).totalHoursFuture = 80 ∧
    (calculateROI [exTask] [] ts 75 none 5000 10 1).costCurrent = 7500 ∧
    (calculateROI [exTask] [] ts 75 none 5000 10 1).costFuture = 6000 ∧
    (calculateROI [exTask] [] ts 75 none 5000 10 1).monthlySavings = 1500 ∧
    (calculateROI [exTask] [] ts 75 none 5000 10 1).aiRecurringCostPerMonth = 0 ∧
    (calculateROI [exTask] [] ts 75 none 5000 10 1).monthlyNetBenefit = 1500 ∧
    (calculateROI [exTask] [] ts 75 none 5000 10 1).paybackMonths =
      ExtRat.fin (5000 / 1500) ∧
    (calculateROI [exTask] [] ts 75 none 5000 10 1).classification =
      "Cost Savings Initiative" := by
  norm_num [calculateROI, adjustTasks, calculateTotalHours,
    calculateTotalHours.step, calculateEffectiveEfficiency,
    calculateHoursSavedPerRun, calculateFutureHoursPerRun, calculateLaborCosts,
    calculateTechCosts, calculateRevenueImpact, isTruthy, exTask]

/-- C3: for every input, `monthlySavings` equals
`max (costCurrent - costFuture) 0`, hence is never negative. -/
theorem c3_monthlySavings_floor (tasks tools ts ahc rm tc rp m) :
    (calculateROI tasks tools ts ahc rm tc rp m).monthlySavings =
      max ((calculateROI tasks tools ts ahc rm tc rp m).costCurrent -
        (calculateROI tasks tools ts ahc rm tc rp m).costFuture) 0 ∧
    0 ≤ (calculateROI tasks tools ts ahc rm tc rp m).monthlySavings :=
  ⟨rfl, by rw [monthlySavings_eq]; exact le_max_right _ _⟩

/-- C4: `paybackMonths` is `trainingCostOneTime / monthlyNetBenefit` when
the net benefit is positive, `+infinity` when it is not, and, when the
training cost is nonnegative, never negative. -/
theorem c4_paybackMonths (tasks tools ts ahc rm tc rp m) :
    (0 < (calculateROI tasks tools ts ahc rm tc rp m).monthlyNetBenefit →
      (calculateROI tasks tools ts ahc rm tc rp m).paybackMonths =
        ExtRat.fin (tc /
          (calculateROI tasks tools ts ahc rm tc rp m).monthlyNetBenefit)) ∧
    ((calculateROI tasks tools ts ahc rm tc rp m).monthlyNetBenefit ≤ 0 →
      (calculateROI tasks tools ts ahc rm tc rp m).paybackMonths = ExtRat.inf) ∧
    (0 ≤ tc →
      ((calculateROI tasks tools ts ahc rm tc rp m).paybackMonths).nonneg) := by
  rw [paybackMonths_eq, trainingCost_eq]
  refine ⟨fun h => ?_, fun h => ?_, fun htc => ?_⟩
  · rw [if_pos h]
  · rw [if_neg (not_lt.mpr h)]
  · by_cases h : 0 < (calculateROI tasks tools ts ahc rm tc rp m).monthlyNetBenefit
    · rw [if_pos h]
      exact div_nonneg htc h.le
    · rw [if_neg h]
      trivial

/-- Witness for C4 at the worked-example input. -/
theorem c4_paybackMonths_witness :
    (calculateROI [exTask] [] 5 75 none 5000 10 1).paybackMonths =
      ExtRat.fin (5000 /
        (calculateROI [exTask] [] 5 75 none 5000 10 1).monthlyNetBenefit) ∧
    ((calculateROI [exTask] [] 5 75 none 5000 10 1).paybackMonths).nonneg := by
  have h := c4_paybackMonths [exTask] [] 5 75 none 5000 10 1
  have hpos : 0 < (calculateROI [exTask] [] 5 75 none 5000 10 1).monthlyNetBenefit := by
    norm_num [monthlyNetBenefit_eq, calculateTotalHours_eq, adjustTasks,
      taskFutureHours, calculateEffectiveEfficiency, calculateHoursSavedPerRun,
      calculateFutureHoursPerRun, calculateTechCosts, calculateRevenueImpact,
      exTask]
  exact ⟨h.1 hpos, h.2.2 (by norm_num)⟩

/-- C5: classification is first-match priority on the ROI output: with
`additionalMonthlyCost = max (aiRecurringCostPerMonth - monthlySavings) 0`,
a positive additional cost exceeded by the revenue uplift yields
"AI Performance Investment" with the tooltip flag set; otherwise savings
strictly above recurring cost yields "Cost Savings Initiative"; otherwise
"Neutral"; and the tooltip is set only in the first case. -/
theorem c5_classification (tasks tools ts ahc rm tc rp m) :
    (calculateROI tasks tools ts ahc rm tc rp m).additionalMonthlyCost =
      max ((calculateROI tasks tools ts ahc rm tc rp m).aiRecurringCostPerMonth -
        (calculateROI tasks tools ts ahc rm tc rp m).monthlySavings) 0 ∧
    ((calculateROI tasks tools ts ahc rm tc rp m).additionalMonthlyCost > 0 ∧
        (calculateROI tasks tools ts ahc rm tc rp m).monthlyUplift >
          (calculateROI tasks tools ts ahc rm tc rp m).additionalMonthlyCost →
      (calculateROI tasks tools ts ahc rm tc rp m).classification =
          "AI Performance Investment" ∧
        (calculateROI tasks tools ts ahc rm tc rp m).showNetBenefitTooltip = true) ∧
    (¬((calculateROI tasks tools ts ahc rm tc rp m).additionalMonthlyCost > 0 ∧
        (calculateROI tasks tools ts ahc rm tc rp m).monthlyUplift >
          (calculateROI tasks tools ts ahc rm tc rp m).additionalMonthlyCost) →
      (calculateROI tasks tools ts ahc rm tc rp m).monthlySavings >
          (calculateROI tasks tools ts ahc rm tc rp m).aiRecurringCostPerMonth →
      (calculateROI tasks tools ts ahc rm tc rp m).classification =
        "Cost Savings Initiative") ∧
    (¬((calculateROI tasks tools ts ahc rm tc rp m).additionalMonthlyCost > 0 ∧
        (calculateROI tasks tools ts ahc rm tc rp m).monthlyUplift >
          (calculateROI tasks tools ts ahc rm tc rp m).additionalMonthlyCost) →
      ¬((calculateROI tasks tools ts ahc rm tc rp m).monthlySavings >
          (calculateROI tasks tools ts ahc rm tc rp m).aiRecurringCostPerMonth) →
      (calculateROI tasks tools ts ahc rm tc rp m).classification = "Neutral") ∧
    ((calculateROI tasks tools ts ahc rm tc rp m).showNetBenefitTooltip = true ↔
      (calculateROI tasks tools ts ahc rm tc rp m).additionalMonthlyCost > 0 ∧
        (calculateROI tasks tools ts ahc rm tc rp m).monthlyUplift >
          (calculateROI tasks tools ts ahc rm tc rp m).additionalMonthlyCost) := by
  have h := classified_eq tasks tools ts ahc rm tc rp m
  refine ⟨rfl, ?_, ?_, ?_, ?_⟩ <;>
    split_ifs at h with hA hB <;>
    simp only [Prod.mk.injEq] at h <;>
    obtain ⟨hc, ht⟩ := h <;>
    simp_all

/-- Witness for C5: with the worked-example task, a 2000/month
account-billed tool and the example revenue model, the first branch fires. -/
theorem c5_classification_witness :
    (calculateROI [exTask] [exTool] 5 75 (some exRevenueModel) 5000 10 1).classification =
        "AI Performance Investment" ∧
      (calculateROI [exTask] [exTool] 5 75 (some exRevenueModel) 5000 10 1).showNetBenefitTooltip = true := by
  have h := c5_classification [exTask] [exTool] 5 75 (some exRevenueModel) 5000 10 1
  apply h.2.1
  constructor <;>
    norm_num [additionalMonthlyCost_eq, monthlyUplift_eq, aiRecurringCost_eq,
      monthlySavings_eq, calculateTotalHours_eq, adjustTasks, taskFutureHours,
      calculateEffectiveEfficiency, calculateHoursSavedPerRun,
      calculateFutureHoursPerRun, calculateTechCosts, calculateTechCosts.toolStep,
      calculateRevenueImpact, isTruthy, exTask, exTool, exRevenueModel]

/-- C6: the revenue uplift used by `calculateROI` is
`revenuePerAsset * (lift/100) * max runsPerMonth 0` exactly when the
revenue model is supplied with both fields truthy (nonzero), and `0` in
every other case, including a present model with a zero field. -/
theorem c6_revenue_truthiness (tasks tools ts ahc rm tc rp m) :
    (∀ r l : ℚ, rm = some ⟨some r, some l⟩ → r ≠ 0 → l ≠ 0 →
      (calculateROI tasks tools ts ahc rm tc rp m).monthlyUplift =
        r * (l / 100) * max rp 0) ∧
    (rm = none →
      (calculateROI tasks tools ts ahc rm tc rp m).monthlyUplift = 0) ∧
    (∀ mo : RevenueModel, rm = some mo →
      (mo.revenuePerAsset = none ∨ mo.revenuePerAsset = some 0 ∨
        mo.expectedIncrementalConversionLiftPct = none ∨
        mo.expectedIncrementalConversionLiftPct = some 0) →
      (calculateROI tasks tools ts ahc rm tc rp m).monthlyUplift = 0) := by
  simp only [monthlyUplift_eq]
  refine ⟨?_, ?_, ?_⟩
  · rintro r l rfl hr hl
    simp [calculateRevenueImpact, isTruthy, hr, hl]
  · rintro rfl
    simp [calculateRevenueImpact]
  · rintro mo rfl hcase
    rcases hcase with h | h | h | h <;> simp [calculateRevenueImpact, isTruthy, h]

/-- Witness for C6: with the example revenue model (1000 per asset, 10%
lift) and 10 runs per month the uplift is `1000 * (10/100) * max 10 0`. -/
theorem c6_revenue_truthiness_witness :
    (calculateROI [exTask] [exTool] 5 75 (some exRevenueModel) 5000 10 1).monthlyUplift =
      1000 * (10 / 100) * max 10 0 :=
  (c6_revenue_truthiness [exTask] [exTool] 5 75 (some exRevenueModel) 5000 10 1).1
    1000 10 rfl (by norm_num) (by norm_num)

/-- C7: `calculateTotalHours` is order-independent and returns `(0, 0)` on
the empty task list. -/
theorem c7_totalHours_perm :
    (∀ l1 l2 : List WorkflowTask, l1.Perm l2 →
      calculateTotalHours l1 = calculateTotalHours l2) ∧
    calculateTotalHours [] = { current := 0, future := 0 } := by
  refine ⟨fun l1 l2 hp => ?_, rfl⟩
  rw [calculateTotalHours_eq, calculateTotalHours_eq]
  have h1 := (hp.map (·.hoursPerRun)).sum_eq
  have h2 := (hp.map taskFutureHours).sum_eq
  simp [h1, h2]

/-- Witness for C7 on a concrete two-element swap. -/
theorem c7_totalHours_perm_witness :
    calculateTotalHours [exTask, exTask2] = calculateTotalHours [exTask2, exTask] :=
  c7_totalHours_perm.1 _ _ (List.Perm.swap exTask2 exTask [])


/-- C1: for tasks with nonnegative hours, coverage in [0,100] and gain in
[0,100], nonnegative team size and hourly cost, and any tools, revenue
model, training cost and run rate, the three scenarios returned by
`generateScenarios` have monotone net benefit: Conservative ≤ Base ≤
Aggressive. -/
theorem c1_scenario_monotonicity (tasks : List WorkflowTask)
    (tools : List RecommendedTool) (ts ahc : ℚ) (rm : Option RevenueModel)
    (tc rp : ℚ)
    (hT : ∀ t ∈ tasks, 0 ≤ t.hoursPerRun ∧
      0 ≤ t.aiCoveragePct ∧ t.aiCoveragePct ≤ 100 ∧
      0 ≤ t.efficiencyGainPct ∧ t.efficiencyGainPct ≤ 100)
    (hts : 0 ≤ ts) (hahc : 0 ≤ ahc)
    (sc sb sa : Scenario)
    (hgen : generateScenarios tasks tools ts ahc rm tc rp = [sc, sb, sa]) :
    sc.calculation.monthlyNetBenefit ≤ sb.calculation.monthlyNetBenefit ∧
      sb.calculation.monthlyNetBenefit ≤ sa.calculation.monthlyNetBenefit := by
  have hT' : ∀ t ∈ tasks, 0 ≤ t.hoursPerRun ∧ 0 ≤ t.aiCoveragePct ∧
      0 ≤ t.efficiencyGainPct := by
    intro t ht
    obtain ⟨h1, h2, _, h3, _⟩ := hT t ht
    exact ⟨h1, h2, h3⟩
  rw [generateScenarios] at hgen
  injection hgen with h1 hgen
  injection hgen with h2 hgen
  injection hgen with h3 _
  subst h1 h2 h3
  exact ⟨monthlyNetBenefit_mono tasks tools ts ahc rm tc rp hT' hahc (by norm_num),
    monthlyNetBenefit_mono tasks tools ts ahc rm tc rp hT' hahc (by norm_num)⟩

/-- Witness for C1 at a concrete input (worked-example task, one
account-billed tool, the example revenue model). -/
theorem c1_scenario_monotonicity_witness :
    ((generateScenarios [exTask] [exTool] 5 75 (some exRevenueModel) 5000 10).get
        ⟨0, by simp [ROICalculator.generateScenarios]⟩).calculation.monthlyNetBenefit ≤
      ((generateScenarios [exTask] [exTool] 5 75 (some exRevenueModel) 5000 10).get
        ⟨1, by simp [ROICalculator.generateScenarios]⟩).calculation.monthlyNetBenefit ∧
    ((generateScenarios [exTask] [exTool] 5 75 (some exRevenueModel) 5000 10).get
        ⟨1, by simp [ROICalculator.generateScenarios]⟩).calculation.monthlyNetBenefit ≤
      ((generateScenarios [exTask] [exTool] 5 75 (some exRevenueModel) 5000 10).get
        ⟨2, by simp [ROICalculator.generateScenarios]⟩).calculation.monthlyNetBenefit :=
  c1_scenario_monotonicity [exTask] [exTool] 5 75 (some exRevenueModel) 5000 10
    (by norm_num [exTask]) (by norm_num) (by norm_num) _ _ _ rfl

/-- C8: over the documented input domain `calculateROI` is total (the
embedding is a total function) and each guarded division falls back as
specified: `paybackMonths` to `+infinity`, `roiPercentage` to `0`,
`throughputMultiplier` to `1` when the respective guard fails. -/
theorem c8_totality (tasks : List WorkflowTask)
    (tools : List RecommendedTool) (ts ahc : ℚ) (rm : Option RevenueModel)
    (tc rp m : ℚ)
    (hT : ∀ t ∈ tasks, 1/2 ≤ t.hoursPerRun ∧ t.hoursPerRun ≤ 40 ∧
      0 ≤ t.aiCoveragePct ∧ t.aiCoveragePct ≤ 100 ∧
      0 ≤ t.efficiencyGainPct ∧ t.efficiencyGainPct ≤ 100)
    (hTools : ∀ tool ∈ tools,
      (∀ q, tool.licensePerUser = some q → 0 ≤ q) ∧
      (∀ q, tool.accountCostPerMonth = some q → 0 ≤ q))
    (hts : 1 ≤ ts) (hahc : 0 ≤ ahc) (htc : 0 ≤ tc) (hrp : 0 ≤ rp) :
    (¬ 0 < (calculateROI tasks tools ts ahc rm tc rp m).monthlyNetBenefit →
      (calculateROI tasks tools ts ahc rm tc rp m).paybackMonths = ExtRat.inf) ∧
    (¬ 0 < (calculateROI tasks tools ts ahc rm tc rp m).trainingCostOneTime +
        (calculateROI tasks tools ts ahc rm tc rp m).aiRecurringCostPerMonth * 12 →
      (calculateROI tasks tools ts ahc rm tc rp m).roiPercentage = 0) ∧
    (¬ 0 < (calculateROI tasks tools ts ahc rm tc rp m).totalHoursFuture →
      (calculateROI tasks tools ts ahc rm tc rp m).throughputMultiplier = 1) := by
  refine ⟨fun h => ?_, fun h => ?_, fun h => ?_⟩
  · rw [paybackMonths_eq, if_neg h]
  · rw [roiPercentage_eq, if_neg h]
  · rw [throughputMultiplier_eq, if_neg h]

/-- Witness for C8: with no tasks the net benefit is 0 and future hours
are 0, so both fallbacks fire. -/
theorem c8_totality_witness :
    (calculateROI [] [] 1 75 none 5000 10 1).paybackMonths = ExtRat.inf ∧
    (calculateROI [] [] 1 75 none 5000 10 1).throughputMultiplier = 1 := by
  have h := c8_totality [] [] 1 75 none 5000 10 1 (by simp) (by simp)
    (by norm_num) (by norm_num) (by norm_num) (by norm_num)
  refine ⟨h.1 ?_, h.2.2 ?_⟩ <;>
    norm_num [monthlyNetBenefit_eq, totalHoursFuture_eq, calculateTotalHours_eq,
      adjustTasks, calculateTechCosts, calculateRevenueImpact]

/-- C9: `calculateLaborCosts` applies no floor: its `savings` field is the
raw difference `current - future` labor cost, which is negative whenever
future hours exceed current hours at a positive hourly cost; the floor to
0 happens only inside `calculateROI`. -/
theorem c9_laborCosts_no_floor :
    (∀ thc thf ahc : ℚ, (calculateLaborCosts thc thf ahc).savings =
      thc * ahc - thf * ahc) ∧
    (∀ thc thf ahc : ℚ, thc < thf → 0 < ahc →
      (calculateLaborCosts thc thf ahc).savings < 0) ∧
    (∀ tasks tools ts ahc rm tc rp m,
      (calculateROI tasks tools ts ahc rm tc rp m).monthlySavings =
        max (calculateLaborCosts
            (calculateROI tasks tools ts ahc rm tc rp m).totalHoursCurrent
            (calculateROI tasks tools ts ahc rm tc rp m).totalHoursFuture
            ahc).savings 0) := by
  refine ⟨fun thc thf ahc => rfl, fun thc thf ahc h1 h2 => ?_,
    fun tasks tools ts ahc rm tc rp m => rfl⟩
  show thc * ahc - thf * ahc < 0
  have := mul_lt_mul_of_pos_right h1 h2
  linarith

/-- Witness for C9: current 1 hour, future 2 hours, hourly cost 1 gives
negative raw savings. -/
theorem c9_laborCosts_no_floor_witness :
    (calculateLaborCosts 1 2 1).savings < 0 :=
  c9_laborCosts_no_floor.2.1 1 2 1 (by norm_num) (by norm_num)

namespace ROICalculator

theorem techCosts_foldl_per_account (tools : List RecommendedTool)
    (h : ∀ t ∈ tools, t.billingModel = .per_account) (acc ts1 ts2 : ℚ) :
    tools.foldl (calculateTechCosts.toolStep ts1) acc =
      tools.foldl (calculateTechCosts.toolStep ts2) acc := by
  induction tools generalizing acc with
  | nil => rfl
  | cons t ts ih =>
      rw [List.foldl_cons, List.foldl_cons]
      rw [show calculateTechCosts.toolStep ts1 acc t =
          calculateTechCosts.toolStep ts2 acc t by
        simp [calculateTechCosts.toolStep, h t (List.mem_cons_self t ts)]]
      exact ih (fun u hu => h u (List.mem_cons_of_mem t hu)) _

end ROICalculator

/-- C10: when every tool is account-billed, `calculateTechCosts` does not
read the team size; an account-billed tool also ignores its
`licensePerUser` field, and one with no `accountCostPerMonth` contributes
0 to the recurring cost. -/
theorem c10_per_account_noninterference (tools : List RecommendedTool)
    (h : ∀ t ∈ tools, t.billingModel = .per_account) :
    (∀ ts1 ts2 tc : ℚ,
      calculateTechCosts tools ts1 tc = calculateTechCosts tools ts2 tc) ∧
    (∀ (nm : String) (lpu1 lpu2 acpm : Option ℚ) (ts tc : ℚ),
      calculateTechCosts [⟨nm, .per_account, lpu1, acpm⟩] ts tc =
        calculateTechCosts [⟨nm, .per_account, lpu2, acpm⟩] ts tc) ∧
    (∀ (nm : String) (lpu : Option ℚ) (ts tc : ℚ),
      (calculateTechCosts [⟨nm, .per_account, lpu, none⟩] ts tc).recurringPerMonth = 0) := by
  refine ⟨fun ts1 ts2 tc => ?_, fun nm lpu1 lpu2 acpm ts tc => ?_,
    fun nm lpu ts tc => ?_⟩
  · rw [calculateTechCosts, calculateTechCosts]
    rw [techCosts_foldl_per_account tools h 0 ts1 ts2]
  · simp [calculateTechCosts, calculateTechCosts.toolStep]
  · simp [calculateTechCosts, calculateTechCosts.toolStep]

/-- Witness for C10 on a concrete two-tool account-billed catalog and two
team sizes. -/
theorem c10_per_account_noninterference_witness :
    calculateTechCosts [exTool, exToolNoCost] 3 5000 =
      calculateTechCosts [exTool, exToolNoCost] 100 5000 :=
  (c10_per_account_noninterference [exTool, exToolNoCost]
    (by simp [exTool, exToolNoCost])).1 3 100 5000
